import Mathlib

/-!
Verification of the Salesforce tool layer.

This file gives a shallow embedding of the HTTP tool functions in
`tools/salesforce_tool.py` (namespace `ST`) and
`tools/opp_salesforce_tools.py` (namespace `OT`), and proves the frozen
claims about them.

Modelling conventions:
* A JSON value is `JValue`; Python dictionaries appear as `JValue.obj`
  association lists.  `pyItem` is Python's `d[k]` (raising `KeyError`),
  `pyDictGet` is `d.get(k, default)` (raising `AttributeError` on a
  non-dict), `pyFalsy` is Python truthiness, and `pyStr` is `str(...)`
  as used by f-string interpolation.
* The network is an environment `SfEnv` mapping each issued
  `HttpRequest` to an `HttpResponse` (status code, parsed JSON body, and
  raw text).  Every embedded function runs in `M α`, a state-passing
  monad over the list of issued requests (the trace), returning
  `Except PyExn α`: a Python exception escaping the function is
  `Except.error`.
* Environment variables are read through `SfEnv.getenv`; a process
  environment binding all five credential variables is assumed, so
  `os.getenv` is total here.
* `requests` iterating Python constructs over non-iterable JSON shapes
  (for example a `records` value that is neither a list nor falsy) are
  modelled as a `TypeError` exception.
-/

inductive JValue where
  | null : JValue
  | str : String → JValue
  | num : Int → JValue
  | arr : List JValue → JValue
  | obj : List (String × JValue) → JValue

mutual

/-- Python `repr` of a JSON value (used by `str` on lists and dicts). -/
def pyRepr : JValue → String
  | JValue.null => "None"
  | JValue.str s => "\x27" ++ s ++ "\x27"
  | JValue.num n => toString n
  | JValue.arr xs => "[" ++ pyReprArr xs ++ "]"
  | JValue.obj fs => "\x7b" ++ pyReprObj fs ++ "\x7d"

/-- Comma-separated `repr` of the elements of a JSON array. -/
def pyReprArr : List JValue → String
  | [] => ""
  | [x] => pyRepr x
  | x :: xs => pyRepr x ++ ", " ++ pyReprArr xs

/-- Comma-separated `repr` of the fields of a JSON object. -/
def pyReprObj : List (String × JValue) → String
  | [] => ""
  | [(k, v)] => "\x27" ++ k ++ "\x27: " ++ pyRepr v
  | (k, v) :: fs => "\x27" ++ k ++ "\x27: " ++ pyRepr v ++ ", " ++ pyReprObj fs

end

/-- Python `str(...)`, as applied by f-string interpolation. -/
def pyStr : JValue → String
  | JValue.null => "None"
  | JValue.str s => s
  | JValue.num n => toString n
  | JValue.arr xs => pyRepr (JValue.arr xs)
  | JValue.obj fs => pyRepr (JValue.obj fs)

/-- A Python exception escaping one of the tool functions. -/
inductive PyExn where
  | exception : String → PyExn
  | keyError : String → PyExn
  | queryError : Nat → String → PyExn
deriving DecidableEq

/-- Python `d[k]`: `KeyError` when the key is absent, `TypeError` when
the subscripted value is not a dict. -/
def pyItem (v : JValue) (k : String) : Except PyExn JValue :=
  match v with
  | JValue.obj fs =>
    match fs.lookup k with
    | some x => Except.ok x
    | none => Except.error (PyExn.keyError k)
  | _ => Except.error (PyExn.exception ("TypeError"))

/-- Python `d.get(k, default)`: `AttributeError` when the receiver is
not a dict. -/
def pyDictGet (v : JValue) (k : String) (d : JValue) : Except PyExn JValue :=
  match v with
  | JValue.obj fs => Except.ok ((fs.lookup k).getD d)
  | _ => Except.error (PyExn.exception ("AttributeError"))

/-- Python truthiness of a JSON value (`not x`). -/
def pyFalsy (v : JValue) : Bool :=
  match v with
  | JValue.null => true
  | JValue.str s => s == ""
  | JValue.num n => n == 0
  | JValue.arr xs => xs.isEmpty
  | JValue.obj fs => fs.isEmpty

/-- Python `v == s` for a JSON value against a Python string. -/
def pyEqStr (v : JValue) (s : String) : Bool :=
  match v with
  | JValue.str t => t == s
  | _ => false

/-- Total field lookup with `null` default (specification side). -/
def jget (v : JValue) (k : String) : JValue :=
  match v with
  | JValue.obj fs => (fs.lookup k).getD JValue.null
  | _ => JValue.null

/-- Total field lookup with an explicit default (specification side). -/
def jgetD (v : JValue) (k : String) (d : JValue) : JValue :=
  match v with
  | JValue.obj fs => (fs.lookup k).getD d
  | _ => d

/-- Whether a JSON value is a dict that has field `k`. -/
def hasKey (v : JValue) (k : String) : Bool :=
  match v with
  | JValue.obj fs => (fs.lookup k).isSome
  | _ => false

/-- Whether a JSON value is a dict. -/
def isObj (v : JValue) : Bool :=
  match v with
  | JValue.obj _ => true
  | _ => false

theorem pyItem_of_hasKey {v : JValue} {k : String} (h : hasKey v k = true) :
    pyItem v k = Except.ok (jget v k) := by
  cases v with
  | obj fs =>
    simp only [pyItem, jget]
    cases hl : fs.lookup k with
    | none => simp [hasKey, hl] at h
    | some x => simp
  | null => simp [hasKey] at h
  | str s => simp [hasKey] at h
  | num n => simp [hasKey] at h
  | arr xs => simp [hasKey] at h

theorem pyDictGet_of_isObj {v : JValue} (k : String) (d : JValue)
    (h : isObj v = true) : pyDictGet v k d = Except.ok (jgetD v k d) := by
  cases v <;> simp [isObj] at h
  simp [pyDictGet, jgetD]

/-- HTTP verbs used by the tool layer. -/
inductive Method where
  | get : Method
  | post : Method
  | patch : Method
  | delete : Method
deriving DecidableEq

/-- A single outbound HTTP request, as issued through `requests`. -/
structure HttpRequest where
  method : Method
  url : String
  headers : List (String × String)
  params : List (String × String)
  body : Option JValue

/-- An HTTP response: status code, parsed JSON body and raw text. -/
structure HttpResponse where
  status_code : Nat
  json : JValue
  text : String

/-- The external world: the process environment and, for every request
the program may issue, the response Salesforce returns for it. -/
structure SfEnv where
  getenv : String → String
  respond : HttpRequest → HttpResponse

/-- The list of HTTP requests issued so far, in order. -/
abbrev Trace := List HttpRequest

/-- Effectful computations: state-passing over the request trace, with
Python exceptions as `Except.error`. -/
def M (α : Type) : Type := Trace → Except PyExn α × Trace

def M.pure {α : Type} (a : α) : M α := fun tr => (Except.ok a, tr)

def M.bind {α β : Type} (x : M α) (f : α → M β) : M β := fun tr =>
  match x tr with
  | (Except.ok a, tr2) => f a tr2
  | (Except.error e, tr2) => (Except.error e, tr2)

instance instMonadM : Monad M := { pure := M.pure, bind := M.bind }

/-- Raise a Python exception. -/
def raiseExn {α : Type} (e : PyExn) : M α := fun tr => (Except.error e, tr)

/-- Lift a pure `Except` computation into `M`. -/
def liftE {α : Type} (x : Except PyExn α) : M α := fun tr => (x, tr)

/-- Issue one HTTP request and record it on the trace. -/
def request (env : SfEnv) (req : HttpRequest) : M HttpResponse :=
  fun tr => (Except.ok (env.respond req), tr ++ [req])

theorem M.bind_apply {α β : Type} (x : M α) (f : α → M β) (tr : Trace) :
    (x >>= f) tr =
      match x tr with
      | (Except.ok a, tr2) => f a tr2
      | (Except.error e, tr2) => (Except.error e, tr2) := rfl

theorem M.pure_apply {α : Type} (a : α) (tr : Trace) :
    (pure a : M α) tr = (Except.ok a, tr) := rfl

theorem M.ite_apply {α : Type} (c : Prop) [Decidable c] (x y : M α)
    (tr : Trace) : (if c then x else y) tr = if c then x tr else y tr := by
  by_cases h : c <;> simp [h]

theorem M.bind_liftE_pure {α β : Type} (e : Except PyExn α) (f : α → β)
    (tr : Trace) :
    M.bind (liftE e) (fun a => M.pure (f a)) tr = (e.map f, tr) := by
  cases e <;> rfl

/-- The fixed Salesforce OAuth token endpoint. -/
def auth_url : String := "https://login.salesforce.com/services/oauth2/token"

/-- The fixed REST API version used in every URL path. -/
def api_version : String := "v57.0"

/-- The form payload of the OAuth password grant, built from the five
environment-sourced credential values. -/
def authData (env : SfEnv) : JValue :=
  JValue.obj [
    ("grant_type", JValue.str ("password")),
    ("client_id", JValue.str (env.getenv ("SF_CONSUMER_KEY"))),
    ("client_secret", JValue.str (env.getenv ("SF_CONSUMER_SECRET"))),
    ("username", JValue.str (env.getenv ("SF_USERNAME"))),
    ("password",
      JValue.str (env.getenv ("SF_PASSWORD") ++ env.getenv ("SF_SECURITY_TOKEN")))]

/-- The POST issued by `get_access_token`. -/
def authRequest (env : SfEnv) : HttpRequest :=
  ⟨Method.post, auth_url, [], [], some (authData env)⟩

/-- Headers attached to every authenticated request. -/
def stdHeaders (access_token : JValue) : List (String × String) :=
  [("Authorization", "Bearer " ++ pyStr access_token),
   ("Content-Type", "application/json")]

/-- The GET issued against the SOQL query endpoint. -/
def queryRequest (instance_url access_token : JValue) (q : String) :
    HttpRequest :=
  ⟨Method.get,
   pyStr instance_url ++ "/services/data/" ++ api_version ++ "/query",
   stdHeaders access_token, [("q", q)], none⟩

/-- Message of the exception raised on a failed token exchange. -/
def authErrorMsg (st : Nat) (body : String) : String :=
  "Error fetching access token: " ++ toString st ++ ", " ++ body

namespace ST

/-- `get_access_token` of `tools/salesforce_tool.py`. -/
def get_access_token (env : SfEnv) : M (JValue × JValue) := do
  let response ← request env (authRequest env)
  if response.status_code == 200 then
    match response.json with
    | JValue.obj fs =>
        pure ((fs.lookup ("access_token")).getD JValue.null,
              (fs.lookup ("instance_url")).getD JValue.null)
    | _ => raiseExn (PyExn.exception ("AttributeError"))
  else
    raiseExn (PyExn.exception (authErrorMsg response.status_code response.text))

/-- Fixed message of the empty branch of `fetch_case_comments`. -/
def noCommentsMsg : String := "*❌ No comments found for this case number.*"

/-- The SOQL text interpolating the case number (no escaping in the
source). -/
def caseCommentsQuery (case_number : String) : String :=
  "SELECT Id, CommentBody, CreatedDate FROM CaseComment WHERE ParentId IN " ++
  "(SELECT Id FROM Case WHERE CaseNumber = \x27" ++ case_number ++ "\x27)"

/-- The `for comment in case_comments` loop of `fetch_case_comments`:
`comment['CommentBody']` and `comment['CreatedDate']` are subscript
accesses, so a malformed comment raises. -/
def commentLoop : List JValue → String → Except PyExn String
  | [], acc => Except.ok acc
  | c :: cs, acc => do
      let body ← pyItem c ("CommentBody")
      let created ← pyItem c ("CreatedDate")
      commentLoop cs
        (acc ++ "*📝 Comment:* " ++ pyStr body ++ "\n*📅 Created On:* " ++
         pyStr created ++ "\n\n")

/-- Success message of `fetch_case_comments`. -/
def caseCommentsMsg (case_number formatted : String) : String :=
  "*✅ Case Comments Retrieved Successfully!*\n\n*🎫 Case Number:* `" ++
  case_number ++ "`\n\n*🔎 Full Comments:* \n" ++ formatted

/-- Error message of `fetch_case_comments` on a non-200 query response. -/
def caseCommentsErrMsg (st : Nat) (t : String) : String :=
  "*❌ Error fetching case comments: " ++ toString st ++ ", " ++ t ++ "*"

/-- `fetch_case_comments` of `tools/salesforce_tool.py`.  Note the
success and empty branches return a bare string: this function never
returns an option mapping. -/
def fetch_case_comments (env : SfEnv) (case_number : String) : M String := do
  let tk ← get_access_token env
  let access_token := tk.1
  let instance_url := tk.2
  let response ← request env
    (queryRequest instance_url access_token (caseCommentsQuery case_number))
  if response.status_code == 200 then
    let case_comments ← liftE (pyDictGet response.json ("records") (JValue.arr []))
    if pyFalsy case_comments then
      pure noCommentsMsg
    else
      match case_comments with
      | JValue.arr cs => do
          let formatted ← liftE (commentLoop cs (""))
          pure (caseCommentsMsg case_number formatted)
      | _ => raiseExn (PyExn.exception ("TypeError"))
  else
    pure (caseCommentsErrMsg response.status_code response.text)

/-- The POST payload of `create_case_in_salesforce`: exactly the five
fields Subject, Description, Priority, Status="New", Origin="Web". -/
def caseData (s d p : String) : JValue :=
  JValue.obj [
    ("Subject", JValue.str s),
    ("Description", JValue.str d),
    ("Priority", JValue.str p),
    ("Status", JValue.str ("New")),
    ("Origin", JValue.str ("Web"))]

/-- The POST issued by `create_case_in_salesforce`. -/
def createCaseRequest (instance_url access_token : JValue) (s d p : String) :
    HttpRequest :=
  ⟨Method.post,
   pyStr instance_url ++ "/services/data/" ++ api_version ++ "/sobjects/Case/",
   stdHeaders access_token, [], some (caseData s d p)⟩

/-- Success message of `create_case_in_salesforce`: the created id plus
the echoed subject, description and priority. -/
def caseCreatedMsg (case_id : JValue) (s d p : String) : String :=
  "*✅ Case Created Successfully!*\n\n*🎫 Case ID:* `" ++ pyStr case_id ++
  "`\n\n*🔎 Case Details:*\nSubject: " ++ s ++ "\nDescription: " ++ d ++
  "\nPriority: " ++ p

/-- Error string (returned, not raised) of `create_case_in_salesforce`. -/
def caseCreateErrMsg (st : Nat) (t : String) : String :=
  "*❌ Error creating case: " ++ toString st ++ ", " ++ t ++ "*"

/-- `create_case_in_salesforce` of `tools/salesforce_tool.py`. -/
def create_case_in_salesforce (env : SfEnv)
    (case_subject case_description case_priority : String) : M String := do
  let tk ← get_access_token env
  let access_token := tk.1
  let instance_url := tk.2
  let response ← request env
    (createCaseRequest instance_url access_token
      case_subject case_description case_priority)
  if response.status_code == 201 then
    let case_id ← liftE (pyDictGet response.json ("id") JValue.null)
    pure (caseCreatedMsg case_id case_subject case_description case_priority)
  else
    pure (caseCreateErrMsg response.status_code response.text)

/-- Confirmation string of `delete_case_in_salesforce` on 204. -/
def caseDeletedMsg (case_id : String) : String :=
  "*✅ Case with ID `" ++ case_id ++ "` was deleted successfully!*"

/-- Error string of `delete_case_in_salesforce`. -/
def caseDeleteErrMsg (case_id : String) (st : Nat) (t : String) : String :=
  "*❌ Error deleting the case with ID `" ++ case_id ++ "`: " ++ toString st ++
  ", " ++ t ++ "*"

/-- The DELETE issued by `delete_case_in_salesforce`. -/
def deleteCaseRequest (instance_url access_token : JValue) (case_id : String) :
    HttpRequest :=
  ⟨Method.delete,
   pyStr instance_url ++ "/services/data/" ++ api_version ++
     "/sobjects/Case/" ++ case_id,
   stdHeaders access_token, [], none⟩

/-- `delete_case_in_salesforce` of `tools/salesforce_tool.py`. -/
def delete_case_in_salesforce (env : SfEnv) (case_id : String) : M String := do
  let tk ← get_access_token env
  let access_token := tk.1
  let instance_url := tk.2
  let response ← request env
    (deleteCaseRequest instance_url access_token case_id)
  if response.status_code == 204 then
    pure (caseDeletedMsg case_id)
  else
    pure (caseDeleteErrMsg case_id response.status_code response.text)

/-- Modelled from the spec: the tail of `execute_soql_query` is absent
from the source file, which ends mid-function right after
`records = response.json().get('records', [])` (no return statement and
no non-200 branch survive in `tools/salesforce_tool.py`).  Following the
spec's words — "Success: HTTP 200 → parse `records` array (absent array
treated as empty) from JSON body.  Failure: non-200 → fails with
`QueryError{status, body}`" — the 200 branch returns the records value
and the non-200 branch fails with `PyExn.queryError` carrying the status
and body.  The authentication step and the GET against the query
endpoint are embedded from the code that is present. -/
def execute_soql_query (env : SfEnv) (soql_query : String) : M JValue := do
  let tk ← get_access_token env
  let access_token := tk.1
  let instance_url := tk.2
  let response ← request env (queryRequest instance_url access_token soql_query)
  if response.status_code == 200 then
    let records ← liftE (pyDictGet response.json ("records") (JValue.arr []))
    pure records
  else
    raiseExn (PyExn.queryError response.status_code response.text)

end ST

namespace OT

/-- `get_access_token` of `tools/opp_salesforce_tools.py` (textually the
same function as the one in `tools/salesforce_tool.py`). -/
def get_access_token (env : SfEnv) : M (JValue × JValue) := do
  let response ← request env (authRequest env)
  if response.status_code == 200 then
    match response.json with
    | JValue.obj fs =>
        pure ((fs.lookup ("access_token")).getD JValue.null,
              (fs.lookup ("instance_url")).getD JValue.null)
    | _ => raiseExn (PyExn.exception ("AttributeError"))
  else
    raiseExn (PyExn.exception (authErrorMsg response.status_code response.text))

/-- `generate_lifecycle_transition_prompt`: the informational prompt
text; the name and current stage are interpolated JSON values. -/
def generate_lifecycle_transition_prompt
    (opportunity_name current_stage : JValue) (new_stage : String) : String :=
  "\n    You are a Salesforce assistant. I have an opportunity called \x27" ++
  pyStr opportunity_name ++ "\x27 which is currently in the \x27" ++
  pyStr current_stage ++ "\x27 stage.\n    The sales team wants to update " ++
  "it to the \x27" ++ new_stage ++ "\x27 stage. Please confirm if all " ++
  "necessary conditions are met for this transition.\n    If so, proceed " ++
  "with the update. If there are any blockers or reasons why this " ++
  "transition can\x27t happen, provide suggestions to resolve them.\n    "

/-- The fixed opportunity list query. -/
def oppQuery : String := "SELECT Id, Name, StageName, CloseDate, Amount FROM Opportunity"

/-- The fixed lead list query. -/
def leadQuery : String := "SELECT Id, FirstName, LastName, Company, Email, LeadSource FROM Lead"

/-- Fixed message of the empty branch of `fetch_opportunities`. -/
def noOppsMsg : String := "*❌ No opportunities found.*"

/-- Header of the formatted opportunity list. -/
def oppsHeader : String := "*✅ Opportunities Retrieved Successfully!*\n\n"

/-- Error string of `fetch_opportunities` on a non-200 query response. -/
def oppFetchErrMsg (st : Nat) (t : String) : String :=
  "*❌ Error fetching opportunities: " ++ toString st ++ ", " ++ t ++ "*"

/-- One formatted option block of the opportunity list. -/
def oppEntry (i : Int) (name closeDate amount stage : JValue) : String :=
  "*Option " ++ toString i ++ " - Opportunity Name:* " ++ pyStr name ++
  "\n*📅 Close Date:* " ++ pyStr closeDate ++ "\n*💰 Amount:* " ++
  pyStr amount ++ "\n*📊 Stage:* " ++ pyStr stage ++ "\n\n"

/-- The `for index, record in enumerate(records, start=1)` loop of
`fetch_opportunities`: the five fields are subscript accesses, so a
record missing one raises `KeyError`. -/
def oppLoop : List JValue → Int → String → List (Int × JValue) →
    Except PyExn (String × List (Int × JValue))
  | [], _, text, opts => Except.ok (text, opts)
  | r :: rs, i, text, opts => do
      let name ← pyItem r ("Name")
      let closeDate ← pyItem r ("CloseDate")
      let amount ← pyItem r ("Amount")
      let stage ← pyItem r ("StageName")
      let id ← pyItem r ("Id")
      oppLoop rs (i + 1) (text ++ oppEntry i name closeDate amount stage)
        (opts ++ [(i, id)])

/-- `fetch_opportunities` of `tools/opp_salesforce_tools.py`. -/
def fetch_opportunities (env : SfEnv) : M (String × List (Int × JValue)) := do
  let tk ← get_access_token env
  let access_token := tk.1
  let instance_url := tk.2
  let response ← request env (queryRequest instance_url access_token oppQuery)
  if response.status_code == 200 then
    let records ← liftE (pyDictGet response.json ("records") (JValue.arr []))
    if pyFalsy records then
      pure (noOppsMsg, [])
    else
      match records with
      | JValue.arr rs => liftE (oppLoop rs 1 oppsHeader [])
      | _ => raiseExn (PyExn.exception ("TypeError"))
  else
    pure (oppFetchErrMsg response.status_code response.text, [])

/-- The GET issued by `fetch_opportunity_details`. -/
def oppDetailsRequest (instance_url access_token oid : JValue) : HttpRequest :=
  ⟨Method.get,
   pyStr instance_url ++ "/services/data/" ++ api_version ++
     "/sobjects/Opportunity/" ++ pyStr oid,
   stdHeaders access_token, [], none⟩

/-- Message of the exception raised by `fetch_opportunity_details`. -/
def oppDetailsErrMsg (st : Nat) (t : String) : String :=
  "Error fetching opportunity details: " ++ toString st ++ ", " ++ t

/-- `fetch_opportunity_details` of `tools/opp_salesforce_tools.py`:
raises on every non-200 response. -/
def fetch_opportunity_details (env : SfEnv) (opportunity_id : JValue) :
    M JValue := do
  let tk ← get_access_token env
  let access_token := tk.1
  let instance_url := tk.2
  let response ← request env
    (oppDetailsRequest instance_url access_token opportunity_id)
  if response.status_code == 200 then
    pure response.json
  else
    raiseExn (PyExn.exception (oppDetailsErrMsg response.status_code response.text))

/-- The PATCH issued by `update_opportunity_stage`, with the
single-field `{StageName: new_stage}` payload. -/
def updateOppRequest (instance_url access_token oid : JValue)
    (new_stage : String) : HttpRequest :=
  ⟨Method.patch,
   pyStr instance_url ++ "/services/data/" ++ api_version ++
     "/sobjects/Opportunity/" ++ pyStr oid,
   stdHeaders access_token, [],
   some (JValue.obj [("StageName", JValue.str new_stage)])⟩

/-- Confirmation string of `update_opportunity_stage` on 204. -/
def updateOkMsg (new_stage : String) : String :=
  "🎉 Opportunity stage successfully updated to " ++ new_stage ++ "!"

/-- Error string (returned, not raised) of `update_opportunity_stage`. -/
def updateFailMsg (st : Nat) (t : String) : String :=
  "❌ Failed to update stage: " ++ toString st ++ ", " ++ t

/-- `update_opportunity_stage` of `tools/opp_salesforce_tools.py`. -/
def update_opportunity_stage (env : SfEnv) (opportunity_id : JValue)
    (new_stage : String) : M String := do
  let tk ← get_access_token env
  let access_token := tk.1
  let instance_url := tk.2
  let response ← request env
    (updateOppRequest instance_url access_token opportunity_id new_stage)
  if response.status_code == 204 then
    pure (updateOkMsg new_stage)
  else
    pure (updateFailMsg response.status_code response.text)

/-- Fixed invalid-option message of the lifecycle workflow. -/
def invalidOptionMsg : String :=
  "*❌ Invalid option selected. Please choose a valid option.*"

/-- No-update-needed message of the lifecycle workflow; the opportunity
name is the interpolated `opportunity_details['Name']`. -/
def noUpdateMsg (name : JValue) (new_stage : String) : String :=
  "⚠️ The stage of the opportunity \"" ++ pyStr name ++
  "\" is already set to *" ++ new_stage ++ "*. There\x27s no need to update!"

/-- The composed success response of the lifecycle workflow. -/
def enhancedResponse (choice : Int) (amount closeDate : JValue)
    (new_stage lifecycle_prompt update_message : String) : String :=
  "\n    🚀 **Opportunity Lifecycle Transition**:\n\n    🔍 **Selected " ++
  "Opportunity**: Option " ++ toString choice ++
  "\n    💵 **Opportunity Amount**: " ++ pyStr amount ++
  "\n    📅 **Close Date**: " ++ pyStr closeDate ++
  "\n\n    🎯 **New Stage**: " ++ new_stage ++
  "\n\n    💬 **Lifecycle Transition Prompt**:\n    " ++ lifecycle_prompt ++
  "\n\n    ✅ **Action**: " ++ update_message ++ "\n    "

/-- `validate_and_update_lifecycle_transition` of
`tools/opp_salesforce_tools.py`: fetch the list, validate the user
choice, fetch the chosen record, guard against an idempotent update,
and only then PATCH. -/
def validate_and_update_lifecycle_transition (env : SfEnv)
    (opportunity_choice : Int) (new_stage : String) : M String := do
  let fo ← fetch_opportunities env
  let formatted_opportunities := fo.1
  let opportunity_options := fo.2
  if opportunity_options.isEmpty then
    pure formatted_opportunities
  else if (opportunity_options.lookup opportunity_choice).isNone then
    pure invalidOptionMsg
  else do
    let opportunity_id := (opportunity_options.lookup opportunity_choice).getD JValue.null
    let opportunity_details ← fetch_opportunity_details env opportunity_id
    let current_stage ← liftE
      (pyDictGet opportunity_details ("StageName") (JValue.str ("Not Available")))
    if pyEqStr current_stage new_stage then
      let nm ← liftE (pyItem opportunity_details ("Name"))
      pure (noUpdateMsg nm new_stage)
    else do
      let nm ← liftE (pyItem opportunity_details ("Name"))
      let lifecycle_prompt :=
        generate_lifecycle_transition_prompt nm current_stage new_stage
      let update_message ← update_opportunity_stage env opportunity_id new_stage
      let amount ← liftE
        (pyDictGet opportunity_details ("Amount") (JValue.str ("Not Available")))
      let closeDate ← liftE
        (pyDictGet opportunity_details ("CloseDate") (JValue.str ("Not Available")))
      pure (enhancedResponse opportunity_choice amount closeDate new_stage
        lifecycle_prompt update_message)

/-- Fixed message of the empty branch of `fetch_leads`. -/
def noLeadsMsg : String := "*❌ No leads found.*"

/-- Header of the formatted lead list. -/
def leadsHeader : String := "*✅ Leads Retrieved Successfully!*\n\n"

/-- Error string of `fetch_leads` on a non-200 query response. -/
def leadFetchErrMsg (st : Nat) (t : String) : String :=
  "*❌ Error fetching leads: " ++ toString st ++ ", " ++ t ++ "*"

/-- One formatted option block of the lead list. -/
def leadEntry (i : Int) (firstName lastName company email leadSource : JValue) :
    String :=
  "*Option " ++ toString i ++ " - Lead Name:* " ++ pyStr firstName ++ " " ++
  pyStr lastName ++ "\n*🏢 Company:* " ++ pyStr company ++ "\n*📧 Email:* " ++
  pyStr email ++ "\n*🔗 Lead Source:* " ++ pyStr leadSource ++ "\n\n"

/-- The `for index, record in enumerate(records, start=1)` loop of
`fetch_leads`: the display fields are `record.get(..., '')` with
defaults, only `record['Id']` is a subscript access. -/
def leadLoop : List JValue → Int → String → List (Int × JValue) →
    Except PyExn (String × List (Int × JValue))
  | [], _, text, opts => Except.ok (text, opts)
  | r :: rs, i, text, opts => do
      let firstName ← pyDictGet r ("FirstName") (JValue.str (""))
      let lastName ← pyDictGet r ("LastName") (JValue.str (""))
      let company ← pyDictGet r ("Company") (JValue.str (""))
      let email ← pyDictGet r ("Email") (JValue.str (""))
      let leadSource ← pyDictGet r ("LeadSource") (JValue.str (""))
      let id ← pyItem r ("Id")
      leadLoop rs (i + 1)
        (text ++ leadEntry i firstName lastName company email leadSource)
        (opts ++ [(i, id)])

/-- `fetch_leads` of `tools/opp_salesforce_tools.py`. -/
def fetch_leads (env : SfEnv) : M (String × List (Int × JValue)) := do
  let tk ← get_access_token env
  let access_token := tk.1
  let instance_url := tk.2
  let response ← request env (queryRequest instance_url access_token leadQuery)
  if response.status_code == 200 then
    let records ← liftE (pyDictGet response.json ("records") (JValue.arr []))
    if pyFalsy records then
      pure (noLeadsMsg, [])
    else
      match records with
      | JValue.arr rs => liftE (leadLoop rs 1 leadsHeader [])
      | _ => raiseExn (PyExn.exception ("TypeError"))
  else
    pure (leadFetchErrMsg response.status_code response.text, [])

/-- The GET issued by `get_lead_details` and `get_lead_email_info`. -/
def leadDetailsRequest (instance_url access_token : JValue) (lead_id : String) :
    HttpRequest :=
  ⟨Method.get,
   pyStr instance_url ++ "/services/data/" ++ api_version ++
     "/sobjects/Lead/" ++ lead_id,
   stdHeaders access_token, [], none⟩

/-- The formatted detail block of `get_lead_details`. -/
def leadDetailsMsg (f l c e ph src stt : JValue) : String :=
  "\n        📊 **Lead Details**:\n        \n        👤 **Name**: " ++
  pyStr f ++ " " ++ pyStr l ++ "\n        🏢 **Company**: " ++ pyStr c ++
  "\n        📧 **Email**: " ++ pyStr e ++ "\n        📱 **Phone**: " ++
  pyStr ph ++ "\n        🔗 **Lead Source**: " ++ pyStr src ++
  "\n        🏆 **Status**: " ++ pyStr stt ++ "\n        "

/-- Error string (returned, not raised) of `get_lead_details`. -/
def leadDetailsErrMsg (st : Nat) (t : String) : String :=
  "*❌ Error fetching lead details: " ++ toString st ++ ", " ++ t ++ "*"

/-- `get_lead_details` of `tools/opp_salesforce_tools.py`: on a non-200
response it RETURNS a formatted error string (it does not raise). -/
def get_lead_details (env : SfEnv) (lead_id : String) : M String := do
  let tk ← get_access_token env
  let access_token := tk.1
  let instance_url := tk.2
  let response ← request env
    (leadDetailsRequest instance_url access_token lead_id)
  if response.status_code == 200 then
    let lead_details := response.json
    let f ← liftE (pyDictGet lead_details ("FirstName") (JValue.str ("")))
    let l ← liftE (pyDictGet lead_details ("LastName") (JValue.str ("")))
    let c ← liftE (pyDictGet lead_details ("Company") (JValue.str ("")))
    let e ← liftE (pyDictGet lead_details ("Email") (JValue.str ("")))
    let ph ← liftE (pyDictGet lead_details ("Phone") (JValue.str ("")))
    let src ← liftE (pyDictGet lead_details ("LeadSource") (JValue.str ("")))
    let stt ← liftE (pyDictGet lead_details ("Status") (JValue.str ("")))
    pure (leadDetailsMsg f l c e ph src stt)
  else
    pure (leadDetailsErrMsg response.status_code response.text)

/-- Message of the exception raised by `get_lead_email_info`. -/
def leadEmailErrMsg (st : Nat) (t : String) : String :=
  "Error fetching lead details: " ++ toString st ++ ", " ++ t

/-- `get_lead_email_info` of `tools/opp_salesforce_tools.py`: returns a
dict of five fields on 200 and raises on every non-200 response. -/
def get_lead_email_info (env : SfEnv) (lead_id : String) :
    M (List (String × JValue)) := do
  let tk ← get_access_token env
  let access_token := tk.1
  let instance_url := tk.2
  let response ← request env
    (leadDetailsRequest instance_url access_token lead_id)
  if response.status_code == 200 then
    let ld := response.json
    let f ← liftE (pyDictGet ld ("FirstName") (JValue.str ("")))
    let l ← liftE (pyDictGet ld ("LastName") (JValue.str ("")))
    let c ← liftE (pyDictGet ld ("Company") (JValue.str ("")))
    let src ← liftE (pyDictGet ld ("LeadSource") (JValue.str ("")))
    let e ← liftE (pyDictGet ld ("Email") (JValue.str ("")))
    pure [("first_name", f), ("last_name", l), ("company", c),
          ("lead_source", src), ("email", e)]
  else
    raiseExn (PyExn.exception (leadEmailErrMsg response.status_code response.text))

end OT

/-! Specification-side characterizations of the two formatter loops. -/

/-- Concatenation of a list of strings. -/
def strConcat : List String → String
  | [] => ""
  | s :: ss => s ++ strConcat ss

/-- The opportunity option block of a record, via total getters. -/
def oppEntryOf (i : Int) (r : JValue) : String :=
  OT.oppEntry i (jget r ("Name")) (jget r ("CloseDate")) (jget r ("Amount"))
    (jget r ("StageName"))

/-- The display text the opportunity loop produces, one block per
record, labels counting up from `i`. -/
def oppEntries : Int → List JValue → String
  | _, [] => ""
  | i, r :: rs => oppEntryOf i r ++ oppEntries (i + 1) rs

/-- The option mapping the opportunity loop produces: consecutive
indices from `i`, each paired with the record's `Id`. -/
def oppOptions : Int → List JValue → List (Int × JValue)
  | _, [] => []
  | i, r :: rs => (i, jget r ("Id")) :: oppOptions (i + 1) rs

/-- A record carrying all five fields the opportunity formatter
subscripts. -/
def hasOppKeys (r : JValue) : Bool :=
  hasKey r ("Name") && hasKey r ("CloseDate") && hasKey r ("Amount") &&
  hasKey r ("StageName") && hasKey r ("Id")

/-- The lead option block of a record: display fields default to the
empty string when absent. -/
def leadEntryOf (i : Int) (r : JValue) : String :=
  OT.leadEntry i (jgetD r ("FirstName") (JValue.str ("")))
    (jgetD r ("LastName") (JValue.str ("")))
    (jgetD r ("Company") (JValue.str ("")))
    (jgetD r ("Email") (JValue.str ("")))
    (jgetD r ("LeadSource") (JValue.str ("")))

/-- The display text the lead loop produces. -/
def leadEntries : Int → List JValue → String
  | _, [] => ""
  | i, r :: rs => leadEntryOf i r ++ leadEntries (i + 1) rs

/-- The option mapping the lead loop produces. -/
def leadOptions : Int → List JValue → List (Int × JValue)
  | _, [] => []
  | i, r :: rs => (i, jget r ("Id")) :: leadOptions (i + 1) rs

/-- A record the lead formatter accepts: a dict with an `Id`. -/
def isLeadOk (r : JValue) : Bool := isObj r && hasKey r ("Id")

theorem pyItem_err_of_not_hasKey {v : JValue} {k : String}
    (hobj : isObj v = true) (h : hasKey v k = false) :
    pyItem v k = Except.error (PyExn.keyError k) := by
  cases v <;> simp [isObj] at hobj
  rename_i fs
  simp only [pyItem]
  cases hl : fs.lookup k with
  | none => simp
  | some x => simp [hasKey, hl] at h

theorem oppLoop_eq {xs : List JValue} (h : ∀ r ∈ xs, hasOppKeys r = true) :
    ∀ (i : Int) (text : String) (opts : List (Int × JValue)),
      OT.oppLoop xs i text opts =
        Except.ok (text ++ oppEntries i xs, opts ++ oppOptions i xs) := by
  induction xs with
  | nil => intro i text opts; simp [OT.oppLoop, oppEntries, oppOptions]
  | cons r rs ih =>
    intro i text opts
    have hr := h r (List.mem_cons_self r rs)
    simp only [hasOppKeys, Bool.and_eq_true] at hr
    obtain ⟨⟨⟨⟨hn, hc⟩, ha⟩, hs⟩, hi⟩ := hr
    have htail : ∀ x ∈ rs, hasOppKeys x = true := fun x hx =>
      h x (List.mem_cons_of_mem r hx)
    simp only [OT.oppLoop, pyItem_of_hasKey hn, pyItem_of_hasKey hc,
      pyItem_of_hasKey ha, pyItem_of_hasKey hs, pyItem_of_hasKey hi,
      Except.bind, bind, ih htail, oppEntries, oppOptions]
    simp [oppEntryOf, String.append_assoc, List.append_assoc]

theorem leadLoop_eq {xs : List JValue} (h : ∀ r ∈ xs, isLeadOk r = true) :
    ∀ (i : Int) (text : String) (opts : List (Int × JValue)),
      OT.leadLoop xs i text opts =
        Except.ok (text ++ leadEntries i xs, opts ++ leadOptions i xs) := by
  induction xs with
  | nil => intro i text opts; simp [OT.leadLoop, leadEntries, leadOptions]
  | cons r rs ih =>
    intro i text opts
    have hr := h r (List.mem_cons_self r rs)
    simp only [isLeadOk, Bool.and_eq_true] at hr
    obtain ⟨hobj, hid⟩ := hr
    have htail : ∀ x ∈ rs, isLeadOk x = true := fun x hx =>
      h x (List.mem_cons_of_mem r hx)
    simp only [OT.leadLoop, pyDictGet_of_isObj _ _ hobj,
      pyItem_of_hasKey hid, Except.bind, bind, ih htail,
      leadEntries, leadOptions]
    simp [leadEntryOf, String.append_assoc, List.append_assoc]

theorem leadLoop_err {xs : List JValue} (hobj : ∀ r ∈ xs, isObj r = true)
    (hbad : ¬ ∀ r ∈ xs, hasKey r ("Id") = true) :
    ∀ (i : Int) (text : String) (opts : List (Int × JValue)),
      OT.leadLoop xs i text opts = Except.error (PyExn.keyError ("Id")) := by
  induction xs with
  | nil => exact absurd (by intro r hr; simp at hr) hbad
  | cons r rs ih =>
    intro i text opts
    have hro := hobj r (List.mem_cons_self r rs)
    have htail : ∀ x ∈ rs, isObj x = true := fun x hx =>
      hobj x (List.mem_cons_of_mem r hx)
    cases hid : hasKey r ("Id") with
    | true =>
      have hbad' : ¬ ∀ x ∈ rs, hasKey x ("Id") = true := by
        intro hall
        exact hbad (by
          intro x hx
          rcases List.mem_cons.mp hx with h1 | h2
          · exact h1 ▸ hid
          · exact hall x h2)
      simp only [OT.leadLoop, pyDictGet_of_isObj _ _ hro,
        pyItem_of_hasKey hid, Except.bind, bind, ih htail hbad']
    | false =>
      simp only [OT.leadLoop, pyDictGet_of_isObj _ _ hro,
        pyItem_err_of_not_hasKey hro hid, Except.bind, bind]

theorem oppOptions_eq_map (xs : List JValue) :
    ∀ i : Int, oppOptions i xs =
      (List.range xs.length).map
        (fun k => (i + Int.ofNat k, jget (xs.getD k JValue.null) ("Id"))) := by
  induction xs with
  | nil => intro i; simp [oppOptions]
  | cons r rs ih =>
    intro i
    rw [List.length_cons, List.range_succ_eq_map, List.map_cons, List.map_map]
    simp only [oppOptions, ih (i + 1)]
    congr 1
    · simp [Int.ofNat_zero]
    · refine List.map_congr_left ?_
      intro k _
      simp only [Function.comp, List.getD_cons_succ, Prod.mk.injEq]
      refine ⟨?_, trivial⟩
      simp [Int.ofNat_succ]
      ring

theorem leadOptions_eq_map (xs : List JValue) :
    ∀ i : Int, leadOptions i xs =
      (List.range xs.length).map
        (fun k => (i + Int.ofNat k, jget (xs.getD k JValue.null) ("Id"))) := by
  induction xs with
  | nil => intro i; simp [leadOptions]
  | cons r rs ih =>
    intro i
    rw [List.length_cons, List.range_succ_eq_map, List.map_cons, List.map_map]
    simp only [leadOptions, ih (i + 1)]
    congr 1
    · simp [Int.ofNat_zero]
    · refine List.map_congr_left ?_
      intro k _
      simp only [Function.comp, List.getD_cons_succ, Prod.mk.injEq]
      refine ⟨?_, trivial⟩
      simp [Int.ofNat_succ]
      ring

theorem oppEntries_eq_concat (xs : List JValue) :
    ∀ i : Int, oppEntries i xs =
      strConcat ((List.range xs.length).map
        (fun k => oppEntryOf (i + Int.ofNat k) (xs.getD k JValue.null))) := by
  induction xs with
  | nil => intro i; simp [oppEntries, strConcat]
  | cons r rs ih =>
    intro i
    rw [List.length_cons, List.range_succ_eq_map, List.map_cons, List.map_map]
    simp only [oppEntries, ih (i + 1), strConcat]
    congr 1
    · simp [Int.ofNat_zero]
    · refine congrArg strConcat (List.map_congr_left ?_)
      intro k _
      simp only [Function.comp, List.getD_cons_succ]
      refine congrArg (fun j => oppEntryOf j (rs.getD k JValue.null)) ?_
      simp [Int.ofNat_succ]
      ring

theorem leadEntries_eq_concat (xs : List JValue) :
    ∀ i : Int, leadEntries i xs =
      strConcat ((List.range xs.length).map
        (fun k => leadEntryOf (i + Int.ofNat k) (xs.getD k JValue.null))) := by
  induction xs with
  | nil => intro i; simp [leadEntries, strConcat]
  | cons r rs ih =>
    intro i
    rw [List.length_cons, List.range_succ_eq_map, List.map_cons, List.map_map]
    simp only [leadEntries, ih (i + 1), strConcat]
    congr 1
    · simp [Int.ofNat_zero]
    · refine congrArg strConcat (List.map_congr_left ?_)
      intro k _
      simp only [Function.comp, List.getD_cons_succ]
      refine congrArg (fun j => leadEntryOf j (rs.getD k JValue.null)) ?_
      simp [Int.ofNat_succ]
      ring

/-! Run lemmas: the trace and result of each operation under an
environment constrained only at the requests the operation issues. -/

theorem ST_get_access_token_ok {env : SfEnv} {tok inst : JValue} {ta : String}
    (hauth : env.respond (authRequest env) =
      ⟨200, JValue.obj [("access_token", tok), ("instance_url", inst)], ta⟩)
    (tr : Trace) :
    ST.get_access_token env tr = (Except.ok (tok, inst), tr ++ [authRequest env]) := by
  have h1 : List.lookup ("access_token")
      [("access_token", tok), ("instance_url", inst)] = some tok := by
    simp [List.lookup]
  have h2 : List.lookup ("instance_url")
      [("access_token", tok), ("instance_url", inst)] = some inst := by
    simp [List.lookup]
  simp [ST.get_access_token, M.bind_apply, M.pure_apply, instMonadM, M.pure,
    M.bind, request, raiseExn, hauth, h1, h2]

theorem OT_get_access_token_ok {env : SfEnv} {tok inst : JValue} {ta : String}
    (hauth : env.respond (authRequest env) =
      ⟨200, JValue.obj [("access_token", tok), ("instance_url", inst)], ta⟩)
    (tr : Trace) :
    OT.get_access_token env tr = (Except.ok (tok, inst), tr ++ [authRequest env]) := by
  have h1 : List.lookup ("access_token")
      [("access_token", tok), ("instance_url", inst)] = some tok := by
    simp [List.lookup]
  have h2 : List.lookup ("instance_url")
      [("access_token", tok), ("instance_url", inst)] = some inst := by
    simp [List.lookup]
  simp [OT.get_access_token, M.bind_apply, M.pure_apply, instMonadM, M.pure,
    M.bind, request, raiseExn, hauth, h1, h2]

theorem ST_get_access_token_err {env : SfEnv} {st : Nat} {bj : JValue}
    {bt : String}
    (hauth : env.respond (authRequest env) = ⟨st, bj, bt⟩) (hst : st ≠ 200)
    (tr : Trace) :
    ST.get_access_token env tr =
      (Except.error (PyExn.exception (authErrorMsg st bt)),
       tr ++ [authRequest env]) := by
  simp [ST.get_access_token, M.bind_apply, M.pure_apply, instMonadM, M.pure,
    M.bind, request, raiseExn, hauth, hst]

theorem OT_get_access_token_err {env : SfEnv} {st : Nat} {bj : JValue}
    {bt : String}
    (hauth : env.respond (authRequest env) = ⟨st, bj, bt⟩) (hst : st ≠ 200)
    (tr : Trace) :
    OT.get_access_token env tr =
      (Except.error (PyExn.exception (authErrorMsg st bt)),
       tr ++ [authRequest env]) := by
  simp [OT.get_access_token, M.bind_apply, M.pure_apply, instMonadM, M.pure,
    M.bind, request, raiseExn, hauth, hst]

theorem fetch_opportunities_200 {env : SfEnv} {tok inst : JValue}
    {ta tq : String} {xs : List JValue}
    (hauth : env.respond (authRequest env) =
      ⟨200, JValue.obj [("access_token", tok), ("instance_url", inst)], ta⟩)
    (hq : env.respond (queryRequest inst tok OT.oppQuery) =
      ⟨200, JValue.obj [("records", JValue.arr xs)], tq⟩)
    (tr : Trace) :
    OT.fetch_opportunities env tr =
      ((if xs.isEmpty then
          Except.ok (OT.noOppsMsg, ([] : List (Int × JValue)))
        else OT.oppLoop xs 1 OT.oppsHeader []),
       tr ++ [authRequest env, queryRequest inst tok OT.oppQuery]) := by
  have h3 : List.lookup ("records") [("records", JValue.arr xs)] =
      some (JValue.arr xs) := by simp [List.lookup]
  cases xs with
  | nil =>
    simp [OT.fetch_opportunities, M.bind_apply, M.pure_apply, instMonadM,
      M.pure, M.bind, request, liftE, raiseExn,
      OT_get_access_token_ok hauth, hq, h3, pyDictGet, pyFalsy]
  | cons y ys =>
    simp [OT.fetch_opportunities, M.bind_apply, M.pure_apply, instMonadM,
      M.pure, M.bind, request, liftE, raiseExn,
      OT_get_access_token_ok hauth, hq, h3, pyDictGet, pyFalsy]

theorem fetch_opportunities_non200 {env : SfEnv} {tok inst : JValue}
    {ta : String} {st : Nat} {bj : JValue} {bt : String}
    (hauth : env.respond (authRequest env) =
      ⟨200, JValue.obj [("access_token", tok), ("instance_url", inst)], ta⟩)
    (hq : env.respond (queryRequest inst tok OT.oppQuery) = ⟨st, bj, bt⟩)
    (hst : st ≠ 200) (tr : Trace) :
    OT.fetch_opportunities env tr =
      (Except.ok (OT.oppFetchErrMsg st bt, []),
       tr ++ [authRequest env, queryRequest inst tok OT.oppQuery]) := by
  simp [OT.fetch_opportunities, M.bind_apply, M.pure_apply, instMonadM,
    M.pure, M.bind, request, liftE, raiseExn,
    OT_get_access_token_ok hauth, hq, hst]

theorem fetch_leads_200 {env : SfEnv} {tok inst : JValue}
    {ta tq : String} {xs : List JValue}
    (hauth : env.respond (authRequest env) =
      ⟨200, JValue.obj [("access_token", tok), ("instance_url", inst)], ta⟩)
    (hq : env.respond (queryRequest inst tok OT.leadQuery) =
      ⟨200, JValue.obj [("records", JValue.arr xs)], tq⟩)
    (tr : Trace) :
    OT.fetch_leads env tr =
      ((if xs.isEmpty then
          Except.ok (OT.noLeadsMsg, ([] : List (Int × JValue)))
        else OT.leadLoop xs 1 OT.leadsHeader []),
       tr ++ [authRequest env, queryRequest inst tok OT.leadQuery]) := by
  have h3 : List.lookup ("records") [("records", JValue.arr xs)] =
      some (JValue.arr xs) := by simp [List.lookup]
  cases xs with
  | nil =>
    simp [OT.fetch_leads, M.bind_apply, M.pure_apply, instMonadM,
      M.pure, M.bind, request, liftE, raiseExn,
      OT_get_access_token_ok hauth, hq, h3, pyDictGet, pyFalsy]
  | cons y ys =>
    simp [OT.fetch_leads, M.bind_apply, M.pure_apply, instMonadM,
      M.pure, M.bind, request, liftE, raiseExn,
      OT_get_access_token_ok hauth, hq, h3, pyDictGet, pyFalsy]

theorem fetch_opportunity_details_200 {env : SfEnv} {tok inst : JValue}
    {ta : String} {oid dj : JValue} {td : String}
    (hauth : env.respond (authRequest env) =
      ⟨200, JValue.obj [("access_token", tok), ("instance_url", inst)], ta⟩)
    (hd : env.respond (OT.oppDetailsRequest inst tok oid) = ⟨200, dj, td⟩)
    (tr : Trace) :
    OT.fetch_opportunity_details env oid tr =
      (Except.ok dj, tr ++ [authRequest env, OT.oppDetailsRequest inst tok oid]) := by
  simp [OT.fetch_opportunity_details, M.bind_apply, M.pure_apply, instMonadM,
    M.pure, M.bind, request, liftE, raiseExn,
    OT_get_access_token_ok hauth, hd]

theorem fetch_opportunity_details_non200 {env : SfEnv} {tok inst : JValue}
    {ta : String} {oid : JValue} {st : Nat} {dj : JValue} {td : String}
    (hauth : env.respond (authRequest env) =
      ⟨200, JValue.obj [("access_token", tok), ("instance_url", inst)], ta⟩)
    (hd : env.respond (OT.oppDetailsRequest inst tok oid) = ⟨st, dj, td⟩)
    (hst : st ≠ 200) (tr : Trace) :
    OT.fetch_opportunity_details env oid tr =
      (Except.error (PyExn.exception (OT.oppDetailsErrMsg st td)),
       tr ++ [authRequest env, OT.oppDetailsRequest inst tok oid]) := by
  simp [OT.fetch_opportunity_details, M.bind_apply, M.pure_apply, instMonadM,
    M.pure, M.bind, request, liftE, raiseExn,
    OT_get_access_token_ok hauth, hd, hst]

/-- C1: for every opportunity choice that resolves (through the option
mapping built by `fetch_opportunities`) to a record whose current
`StageName` equals the requested new stage,
`validate_and_update_lifecycle_transition` returns the
no-update-needed message, and the run issues exactly the two
authentication POSTs and two GETs — in particular no PATCH request is
ever issued, i.e. `update_opportunity_stage` is never invoked. -/
theorem c1_stage_match_returns_no_update_and_never_patches
    (env : SfEnv) (tok inst : JValue) (ta tq td : String)
    (xs : List JValue) (c : Int) (oid nm : JValue)
    (ds : List (String × JValue)) (new_stage : String)
    (hauth : env.respond (authRequest env) =
      ⟨200, JValue.obj [("access_token", tok), ("instance_url", inst)], ta⟩)
    (hq : env.respond (queryRequest inst tok OT.oppQuery) =
      ⟨200, JValue.obj [("records", JValue.arr xs)], tq⟩)
    (hxs : xs ≠ [])
    (hkx : ∀ r ∈ xs, hasOppKeys r = true)
    (hc : (oppOptions 1 xs).lookup c = some oid)
    (hd : env.respond (OT.oppDetailsRequest inst tok oid) =
      ⟨200, JValue.obj ds, td⟩)
    (hstage : ds.lookup ("StageName") = some (JValue.str new_stage))
    (hname : ds.lookup ("Name") = some nm) :
    OT.validate_and_update_lifecycle_transition env c new_stage [] =
      (Except.ok (OT.noUpdateMsg nm new_stage),
       [authRequest env, queryRequest inst tok OT.oppQuery,
        authRequest env, OT.oppDetailsRequest inst tok oid]) ∧
    ∀ req ∈ (OT.validate_and_update_lifecycle_transition env c new_stage []).2,
      req.method ≠ Method.patch := by
  obtain ⟨y, ys, rfl⟩ := List.exists_cons_of_ne_nil hxs
  have hrun : OT.validate_and_update_lifecycle_transition env c new_stage [] =
      (Except.ok (OT.noUpdateMsg nm new_stage),
       [authRequest env, queryRequest inst tok OT.oppQuery,
        authRequest env, OT.oppDetailsRequest inst tok oid]) := by
    have hne : (oppOptions 1 (y :: ys)).isEmpty = false := by simp [oppOptions]
    have h1 : List.lookup ("access_token")
        [("access_token", tok), ("instance_url", inst)] = some tok := by
      simp [List.lookup]
    have h2 : List.lookup ("instance_url")
        [("access_token", tok), ("instance_url", inst)] = some inst := by
      simp [List.lookup]
    have h3 : List.lookup ("records")
        [("records", JValue.arr (y :: ys))] = some (JValue.arr (y :: ys)) := by
      simp [List.lookup]
    simp [OT.validate_and_update_lifecycle_transition, OT.fetch_opportunities,
      OT.fetch_opportunity_details, OT.get_access_token,
      M.bind_apply, M.pure_apply, instMonadM, M.pure, M.bind,
      request, liftE, raiseExn, hauth, hq, hd, hc, hstage, hname, hne,
      h1, h2, h3, pyDictGet, pyFalsy, pyEqStr, pyItem,
      oppLoop_eq hkx]
  refine ⟨hrun, ?_⟩
  rw [hrun]
  intro req hreq
  simp only [List.mem_cons, List.mem_singleton] at hreq
  rcases hreq with rfl | rfl | rfl | rfl | h
  · simp [authRequest]
  · simp [queryRequest]
  · simp [authRequest]
  · simp [OT.oppDetailsRequest]
  · simp at h

/-- C2 (amended): for every `opportunity_choice` that is not a key of
the non-empty option mapping returned by `fetch_opportunities`,
`validate_and_update_lifecycle_transition` returns the fixed
invalid-option message and performs no network calls beyond the two the
initial `fetch_opportunities` itself issues (the auth POST and the list
GET) — in particular no fetch-by-id and no PATCH. -/
theorem c2_invalid_choice_returns_fixed_message_no_further_calls
    (env : SfEnv) (tok inst : JValue) (ta tq : String)
    (xs : List JValue) (c : Int) (new_stage : String)
    (hauth : env.respond (authRequest env) =
      ⟨200, JValue.obj [("access_token", tok), ("instance_url", inst)], ta⟩)
    (hq : env.respond (queryRequest inst tok OT.oppQuery) =
      ⟨200, JValue.obj [("records", JValue.arr xs)], tq⟩)
    (hxs : xs ≠ [])
    (hkx : ∀ r ∈ xs, hasOppKeys r = true)
    (hc : (oppOptions 1 xs).lookup c = none) :
    OT.validate_and_update_lifecycle_transition env c new_stage [] =
      (Except.ok OT.invalidOptionMsg,
       [authRequest env, queryRequest inst tok OT.oppQuery]) ∧
    ∀ req ∈ (OT.validate_and_update_lifecycle_transition env c new_stage []).2,
      req = authRequest env ∨ req = queryRequest inst tok OT.oppQuery := by
  obtain ⟨y, ys, rfl⟩ := List.exists_cons_of_ne_nil hxs
  have hfetch := fetch_opportunities_200 hauth hq []
  rw [oppLoop_eq hkx] at hfetch
  simp only [List.isEmpty_cons, if_false, List.nil_append, Bool.false_eq_true,
    ite_false] at hfetch
  have hne : (oppOptions 1 (y :: ys)).isEmpty = false := by simp [oppOptions]
  have hrun : OT.validate_and_update_lifecycle_transition env c new_stage [] =
      (Except.ok OT.invalidOptionMsg,
       [authRequest env, queryRequest inst tok OT.oppQuery]) := by
    simp [OT.validate_and_update_lifecycle_transition, M.bind_apply,
      M.pure_apply, instMonadM, M.pure, M.bind, hfetch, hne, hc]
  refine ⟨hrun, ?_⟩
  rw [hrun]
  intro req hreq
  simpa using hreq

/-- C3: `execute_soql_query` — with its missing tail modelled from the
spec — authenticates, GETs the query endpoint once, and on a 200
response returns the `records` value of the JSON body (an absent
`records` key yielding the empty array), while on every non-200
response it fails with `QueryError` carrying the status and body. -/
theorem c3_execute_soql_query_records_or_query_error
    (env : SfEnv) (tok inst : JValue) (ta q : String) (st : Nat)
    (bj : JValue) (bt : String)
    (hauth : env.respond (authRequest env) =
      ⟨200, JValue.obj [("access_token", tok), ("instance_url", inst)], ta⟩)
    (hq : env.respond (queryRequest inst tok q) = ⟨st, bj, bt⟩) :
    (∀ fs : List (String × JValue), st = 200 → bj = JValue.obj fs →
      ST.execute_soql_query env q [] =
        (Except.ok ((fs.lookup ("records")).getD (JValue.arr [])),
         [authRequest env, queryRequest inst tok q])) ∧
    (st ≠ 200 →
      ST.execute_soql_query env q [] =
        (Except.error (PyExn.queryError st bt),
         [authRequest env, queryRequest inst tok q])) := by
  constructor
  · intro fs h200 hobj
    subst h200; subst hobj
    simp [ST.execute_soql_query, M.bind_apply, M.pure_apply, instMonadM,
      M.pure, M.bind, request, liftE, raiseExn,
      ST_get_access_token_ok hauth, hq, pyDictGet]
  · intro hst
    simp [ST.execute_soql_query, M.bind_apply, M.pure_apply, instMonadM,
      M.pure, M.bind, request, liftE, raiseExn,
      ST_get_access_token_ok hauth, hq, hst]

/-- C4 (amended): on a non-200 response, the fetch-by-id operations
`fetch_opportunity_details` (Opportunity) and `get_lead_email_info`
(Lead) fail by raising an error carrying the status and body; but
`get_lead_details` (the other Lead fetch-by-id) does not raise — it
returns a formatted error string like create/update/delete do. -/
theorem c4_fetch_by_id_error_behaviour
    (env : SfEnv) (tok inst : JValue) (ta : String) (oid : JValue)
    (lid : String) (sto : Nat) (djo : JValue) (bto : String)
    (stl : Nat) (djl : JValue) (btl : String)
    (hauth : env.respond (authRequest env) =
      ⟨200, JValue.obj [("access_token", tok), ("instance_url", inst)], ta⟩)
    (hdo : env.respond (OT.oppDetailsRequest inst tok oid) = ⟨sto, djo, bto⟩)
    (hsto : sto ≠ 200)
    (hdl : env.respond (OT.leadDetailsRequest inst tok lid) = ⟨stl, djl, btl⟩)
    (hstl : stl ≠ 200) :
    OT.fetch_opportunity_details env oid [] =
      (Except.error (PyExn.exception (OT.oppDetailsErrMsg sto bto)),
       [authRequest env, OT.oppDetailsRequest inst tok oid]) ∧
    OT.get_lead_email_info env lid [] =
      (Except.error (PyExn.exception (OT.leadEmailErrMsg stl btl)),
       [authRequest env, OT.leadDetailsRequest inst tok lid]) ∧
    OT.get_lead_details env lid [] =
      (Except.ok (OT.leadDetailsErrMsg stl btl),
       [authRequest env, OT.leadDetailsRequest inst tok lid]) := by
  refine ⟨fetch_opportunity_details_non200 hauth hdo hsto [], ?_, ?_⟩
  · simp [OT.get_lead_email_info, M.bind_apply, M.pure_apply, instMonadM,
      M.pure, M.bind, request, liftE, raiseExn,
      OT_get_access_token_ok hauth, hdl, hstl]
  · simp [OT.get_lead_details, M.bind_apply, M.pure_apply, instMonadM,
      M.pure, M.bind, request, liftE, raiseExn,
      OT_get_access_token_ok hauth, hdl, hstl]

/-- C5: for a non-empty records sequence of length N (records carrying
the fields the formatters read), `fetch_opportunities` and `fetch_leads`
produce exactly N option blocks labeled 1..N in input order — no
resorting — and the option mapping is exactly the list of keys 1..N in
order, key k+1 mapped to the Id of the k-th record. -/
theorem c5_formatters_enumerate_options_in_order
    (env : SfEnv) (tok inst : JValue) (ta tq tl : String)
    (xs ys : List JValue)
    (hauth : env.respond (authRequest env) =
      ⟨200, JValue.obj [("access_token", tok), ("instance_url", inst)], ta⟩)
    (hq : env.respond (queryRequest inst tok OT.oppQuery) =
      ⟨200, JValue.obj [("records", JValue.arr xs)], tq⟩)
    (hl : env.respond (queryRequest inst tok OT.leadQuery) =
      ⟨200, JValue.obj [("records", JValue.arr ys)], tl⟩)
    (hxs : xs ≠ []) (hys : ys ≠ [])
    (hkx : ∀ r ∈ xs, hasOppKeys r = true)
    (hky : ∀ r ∈ ys, isLeadOk r = true) :
    OT.fetch_opportunities env [] =
      (Except.ok (OT.oppsHeader ++ oppEntries 1 xs, oppOptions 1 xs),
       [authRequest env, queryRequest inst tok OT.oppQuery]) ∧
    oppEntries 1 xs = strConcat ((List.range xs.length).map
      (fun k => oppEntryOf (1 + Int.ofNat k) (xs.getD k JValue.null))) ∧
    oppOptions 1 xs = (List.range xs.length).map
      (fun k => (1 + Int.ofNat k, jget (xs.getD k JValue.null) ("Id"))) ∧
    (oppOptions 1 xs).map Prod.fst =
      (List.range xs.length).map (fun k => 1 + Int.ofNat k) ∧
    OT.fetch_leads env [] =
      (Except.ok (OT.leadsHeader ++ leadEntries 1 ys, leadOptions 1 ys),
       [authRequest env, queryRequest inst tok OT.leadQuery]) ∧
    leadEntries 1 ys = strConcat ((List.range ys.length).map
      (fun k => leadEntryOf (1 + Int.ofNat k) (ys.getD k JValue.null))) ∧
    leadOptions 1 ys = (List.range ys.length).map
      (fun k => (1 + Int.ofNat k, jget (ys.getD k JValue.null) ("Id"))) ∧
    (leadOptions 1 ys).map Prod.fst =
      (List.range ys.length).map (fun k => 1 + Int.ofNat k) := by
  obtain ⟨y, ys2, rfl⟩ := List.exists_cons_of_ne_nil hxs
  obtain ⟨z, zs2, rfl⟩ := List.exists_cons_of_ne_nil hys
  have hfo := fetch_opportunities_200 hauth hq []
  rw [oppLoop_eq hkx] at hfo
  simp only [List.isEmpty_cons, List.nil_append, Bool.false_eq_true,
    ite_false] at hfo
  have hfl := fetch_leads_200 hauth hl []
  rw [leadLoop_eq hky] at hfl
  simp only [List.isEmpty_cons, List.nil_append, Bool.false_eq_true,
    ite_false] at hfl
  refine ⟨hfo, oppEntries_eq_concat _ 1, oppOptions_eq_map _ 1, ?_,
          hfl, leadEntries_eq_concat _ 1, leadOptions_eq_map _ 1, ?_⟩
  · rw [oppOptions_eq_map _ 1, List.map_map]
    exact List.map_congr_left (by intro k _; rfl)
  · rw [leadOptions_eq_map _ 1, List.map_map]
    exact List.map_congr_left (by intro k _; rfl)

/-- C6 (amended): for an empty `records` array in an HTTP 200 query
response, `fetch_opportunities` and `fetch_leads` return their fixed
no-records message together with an empty option mapping, while
`fetch_case_comments` returns only its fixed no-comments message — its
result is a bare string with no option-mapping component. -/
theorem c6_empty_records_fixed_message_and_empty_mapping
    (env : SfEnv) (tok inst : JValue) (ta t1 t2 t3 cn : String)
    (hauth : env.respond (authRequest env) =
      ⟨200, JValue.obj [("access_token", tok), ("instance_url", inst)], ta⟩)
    (hqo : env.respond (queryRequest inst tok OT.oppQuery) =
      ⟨200, JValue.obj [("records", JValue.arr [])], t1⟩)
    (hql : env.respond (queryRequest inst tok OT.leadQuery) =
      ⟨200, JValue.obj [("records", JValue.arr [])], t2⟩)
    (hqc : env.respond (queryRequest inst tok (ST.caseCommentsQuery cn)) =
      ⟨200, JValue.obj [("records", JValue.arr [])], t3⟩) :
    OT.fetch_opportunities env [] =
      (Except.ok (OT.noOppsMsg, []),
       [authRequest env, queryRequest inst tok OT.oppQuery]) ∧
    OT.fetch_leads env [] =
      (Except.ok (OT.noLeadsMsg, []),
       [authRequest env, queryRequest inst tok OT.leadQuery]) ∧
    ST.fetch_case_comments env cn [] =
      (Except.ok ST.noCommentsMsg,
       [authRequest env, queryRequest inst tok (ST.caseCommentsQuery cn)]) := by
  refine ⟨?_, ?_, ?_⟩
  · simpa using fetch_opportunities_200 hauth hqo []
  · simpa using fetch_leads_200 hauth hql []
  · have h3 : List.lookup ("records") [("records", JValue.arr ([] : List JValue))] =
        some (JValue.arr []) := by simp [List.lookup]
    simp [ST.fetch_case_comments, M.bind_apply, M.pure_apply, instMonadM,
      M.pure, M.bind, request, liftE, raiseExn,
      ST_get_access_token_ok hauth, hqc, h3, pyDictGet, pyFalsy]

/-- C7: on every non-200 response from the token endpoint, both copies
of `get_access_token` fail with an exception whose message carries the
response's status code and body verbatim, after exactly the single
token POST (no retry). -/
theorem c7_auth_failure_passes_status_and_body_through
    (env : SfEnv) (st : Nat) (bj : JValue) (bt : String)
    (hauth : env.respond (authRequest env) = ⟨st, bj, bt⟩)
    (hst : st ≠ 200) :
    ST.get_access_token env [] =
      (Except.error (PyExn.exception
        ("Error fetching access token: " ++ toString st ++ ", " ++ bt)),
       [authRequest env]) ∧
    OT.get_access_token env [] =
      (Except.error (PyExn.exception
        ("Error fetching access token: " ++ toString st ++ ", " ++ bt)),
       [authRequest env]) := by
  constructor
  · simpa [authErrorMsg] using ST_get_access_token_err hauth hst []
  · simpa [authErrorMsg] using OT_get_access_token_err hauth hst []

/-- C8: `create_case_in_salesforce` issues, after the auth POST, exactly
one POST whose JSON body is exactly
`{Subject, Description, Priority, Status="New", Origin="Web"}`; on a 201
response whose body has an `id` it returns the formatted message
containing that id and the echoed subject, description and priority; on
any other status it returns a formatted error string (an `Except.ok`
value, not an exception). -/
theorem c8_create_case_body_and_results
    (env : SfEnv) (tok inst : JValue) (ta : String)
    (subj desc prio : String)
    (hauth : env.respond (authRequest env) =
      ⟨200, JValue.obj [("access_token", tok), ("instance_url", inst)], ta⟩) :
    (ST.create_case_in_salesforce env subj desc prio []).2 =
      [authRequest env, ST.createCaseRequest inst tok subj desc prio] ∧
    ST.createCaseRequest inst tok subj desc prio =
      ⟨Method.post,
       pyStr inst ++ "/services/data/" ++ api_version ++ "/sobjects/Case/",
       stdHeaders tok, [],
       some (JValue.obj [
         ("Subject", JValue.str subj),
         ("Description", JValue.str desc),
         ("Priority", JValue.str prio),
         ("Status", JValue.str ("New")),
         ("Origin", JValue.str ("Web"))])⟩ ∧
    (∀ (cs : List (String × JValue)) (bt : String) (cid : JValue),
      env.respond (ST.createCaseRequest inst tok subj desc prio) =
        ⟨201, JValue.obj cs, bt⟩ →
      List.lookup ("id") cs = some cid →
      (ST.create_case_in_salesforce env subj desc prio []).1 =
        Except.ok (ST.caseCreatedMsg cid subj desc prio)) ∧
    (∀ (st : Nat) (bj : JValue) (bt : String),
      env.respond (ST.createCaseRequest inst tok subj desc prio) =
        ⟨st, bj, bt⟩ → st ≠ 201 →
      (ST.create_case_in_salesforce env subj desc prio []).1 =
        Except.ok (ST.caseCreateErrMsg st bt)) := by
  refine ⟨?_, rfl, ?_, ?_⟩
  · rcases hresp : env.respond (ST.createCaseRequest inst tok subj desc prio)
      with ⟨cst, cjs, ctx⟩
    rcases hpd : pyDictGet cjs ("id") JValue.null with e | v <;>
      by_cases h201 : cst = 201 <;>
      simp [ST.create_case_in_salesforce, M.bind_apply, M.pure_apply,
        instMonadM, M.pure, M.bind, request, liftE, raiseExn,
        ST_get_access_token_ok hauth, hresp, hpd, h201]
  · intro cs bt cid hresp hid
    simp [ST.create_case_in_salesforce, M.bind_apply, M.pure_apply,
      instMonadM, M.pure, M.bind, request, liftE, raiseExn,
      ST_get_access_token_ok hauth, hresp, hid, pyDictGet]
  · intro st bj bt hresp hst
    simp [ST.create_case_in_salesforce, M.bind_apply, M.pure_apply,
      instMonadM, M.pure, M.bind, request, liftE, raiseExn,
      ST_get_access_token_ok hauth, hresp, hst]

/-- C9: on a non-200 response to the opportunity list query,
`fetch_opportunities` returns the formatted query-error string paired
with an empty option mapping, and consequently
`validate_and_update_lifecycle_transition` (for every choice and target
stage) returns that same error string through its empty-options early
return, issuing no fetch-by-id and no PATCH — the run's requests are
exactly the auth POST and the list GET. -/
theorem c9_query_failure_covered_by_empty_options_return
    (env : SfEnv) (tok inst : JValue) (ta : String) (st : Nat)
    (bj : JValue) (bt : String)
    (hauth : env.respond (authRequest env) =
      ⟨200, JValue.obj [("access_token", tok), ("instance_url", inst)], ta⟩)
    (hq : env.respond (queryRequest inst tok OT.oppQuery) = ⟨st, bj, bt⟩)
    (hst : st ≠ 200) :
    OT.fetch_opportunities env [] =
      (Except.ok (OT.oppFetchErrMsg st bt, []),
       [authRequest env, queryRequest inst tok OT.oppQuery]) ∧
    ∀ (c : Int) (new_stage : String),
      OT.validate_and_update_lifecycle_transition env c new_stage [] =
        (Except.ok (OT.oppFetchErrMsg st bt),
         [authRequest env, queryRequest inst tok OT.oppQuery]) ∧
      ∀ req ∈ (OT.validate_and_update_lifecycle_transition env c new_stage []).2,
        req = authRequest env ∨ req = queryRequest inst tok OT.oppQuery := by
  have hfetch := fetch_opportunities_non200 hauth hq hst []
  simp only [List.nil_append] at hfetch
  refine ⟨hfetch, ?_⟩
  intro c new_stage
  have hrun : OT.validate_and_update_lifecycle_transition env c new_stage [] =
      (Except.ok (OT.oppFetchErrMsg st bt),
       [authRequest env, queryRequest inst tok OT.oppQuery]) := by
    simp [OT.validate_and_update_lifecycle_transition, M.bind_apply,
      M.pure_apply, instMonadM, M.pure, M.bind, hfetch]
  refine ⟨hrun, ?_⟩
  rw [hrun]
  intro req hreq
  simpa using hreq

/-- C10: given a 200 lead query response whose records are all dicts,
`fetch_leads` succeeds exactly when every record has an `Id` key —
absent FirstName/LastName/Company/Email/LeadSource fields default to the
empty string in the display text (third conjunct), and only a missing
`Id` makes the operation fail (the `iff`, whose failing direction is a
`KeyError`). -/
theorem c10_fetch_leads_tolerates_missing_display_fields
    (env : SfEnv) (tok inst : JValue) (ta tq : String) (ys : List JValue)
    (hauth : env.respond (authRequest env) =
      ⟨200, JValue.obj [("access_token", tok), ("instance_url", inst)], ta⟩)
    (hq : env.respond (queryRequest inst tok OT.leadQuery) =
      ⟨200, JValue.obj [("records", JValue.arr ys)], tq⟩)
    (hobj : ∀ r ∈ ys, isObj r = true) :
    (ys ≠ [] → (∀ r ∈ ys, hasKey r ("Id") = true) →
      OT.fetch_leads env [] =
        (Except.ok (OT.leadsHeader ++ leadEntries 1 ys, leadOptions 1 ys),
         [authRequest env, queryRequest inst tok OT.leadQuery])) ∧
    ((∃ v, (OT.fetch_leads env []).1 = Except.ok v) ↔
      ∀ r ∈ ys, hasKey r ("Id") = true) ∧
    (∀ (r : JValue) (k : String), isObj r = true → hasKey r k = false →
      jgetD r k (JValue.str ("")) = JValue.str ("")) := by
  have hok : ∀ hid : ∀ r ∈ ys, hasKey r ("Id") = true, ys ≠ [] →
      OT.fetch_leads env [] =
        (Except.ok (OT.leadsHeader ++ leadEntries 1 ys, leadOptions 1 ys),
         [authRequest env, queryRequest inst tok OT.leadQuery]) := by
    intro hid hne
    obtain ⟨z, zs, rfl⟩ := List.exists_cons_of_ne_nil hne
    have hall : ∀ r ∈ z :: zs, isLeadOk r = true := by
      intro r hr
      simp [isLeadOk, hobj r hr, hid r hr]
    have h := fetch_leads_200 hauth hq []
    rw [leadLoop_eq hall] at h
    simpa using h
  refine ⟨fun hne hid => hok hid hne, ?_, ?_⟩
  · by_cases hid : ∀ r ∈ ys, hasKey r ("Id") = true
    · refine iff_of_true ?_ hid
      cases hys : ys with
      | nil =>
        subst hys
        have h := fetch_leads_200 hauth hq []
        simp only [List.isEmpty_nil, ite_true, List.nil_append] at h
        exact ⟨(OT.noLeadsMsg, []), by rw [h]⟩
      | cons z zs =>
        have h := hok hid (by simp [hys])
        exact ⟨_, by rw [h]⟩
    · refine iff_of_false ?_ hid
      simp only [not_exists]
      have hne : ys ≠ [] := by
        intro hnil
        exact hid (by intro r hr; rw [hnil] at hr; simp at hr)
      obtain ⟨z, zs, rfl⟩ := List.exists_cons_of_ne_nil hne
      have h := fetch_leads_200 hauth hq []
      rw [leadLoop_err hobj hid] at h
      simp only [List.isEmpty_cons, Bool.false_eq_true, ite_false,
        List.nil_append] at h
      intro v
      rw [h]
      simp
  · intro r k hro hk
    cases r <;> simp [isObj] at hro
    rename_i fs
    cases hl : fs.lookup k with
    | none => simp [jgetD, hl]
    | some x => simp [hasKey, hl] at hk

/-! Concrete fixtures: a token, an instance URL, sample records, and
environments used by the counterexamples and witnesses. -/

def tokJ : JValue := JValue.str ("TOK")

def instJ : JValue := JValue.str ("https://ex")

def authOkResp : HttpResponse :=
  ⟨200, JValue.obj [("access_token", tokJ), ("instance_url", instJ)], "authbody"⟩

def rAcme : JValue := JValue.obj [
  ("Id", JValue.str ("006A")),
  ("Name", JValue.str ("Acme Deal")),
  ("StageName", JValue.str ("Prospecting")),
  ("CloseDate", JValue.str ("2024-01-01")),
  ("Amount", JValue.num 1000)]

def rBeta : JValue := JValue.obj [
  ("Id", JValue.str ("006B")),
  ("Name", JValue.str ("Beta Deal")),
  ("StageName", JValue.str ("Closed Won")),
  ("CloseDate", JValue.str ("2024-02-01")),
  ("Amount", JValue.num 2000)]

def leadAda : JValue := JValue.obj [
  ("Id", JValue.str ("00Q1")),
  ("FirstName", JValue.str ("Ada")),
  ("LastName", JValue.str ("Love")),
  ("Company", JValue.str ("Acme")),
  ("Email", JValue.str ("ada@acme.io")),
  ("LeadSource", JValue.str ("Web"))]

/-- A lead record carrying only its `Id` — every display field absent. -/
def leadBare : JValue := JValue.obj [("Id", JValue.str ("00Q2"))]

/-- The details record the fetch-by-id endpoint returns in the C1
scenario: its `StageName` is already `Prospecting`. -/
def dsAcme : List (String × JValue) := [
  ("Id", JValue.str ("006A")),
  ("Name", JValue.str ("Acme Deal")),
  ("StageName", JValue.str ("Prospecting"))]

/-- Environment for C1: one opportunity in the list, and a fetch-by-id
response whose stage already equals the requested stage. -/
def E1 : SfEnv :=
  ⟨fun _ => "x", fun req =>
    match req.method with
    | Method.post => authOkResp
    | Method.get =>
        if req.url = "https://ex/services/data/v57.0/query" then
          ⟨200, JValue.obj [("records", JValue.arr [rAcme])], "q"⟩
        else ⟨200, JValue.obj dsAcme, "d"⟩
    | _ => ⟨500, JValue.null, "e"⟩⟩

/-- Environment for C2/C3: authentication succeeds and every GET
returns the one-record opportunity list. -/
def E2 : SfEnv :=
  ⟨fun _ => "x", fun req =>
    match req.method with
    | Method.post => authOkResp
    | Method.get => ⟨200, JValue.obj [("records", JValue.arr [rAcme])], "q"⟩
    | _ => ⟨500, JValue.null, "e"⟩⟩

/-- Environment for C4: every GET fails with a 404. -/
def E4 : SfEnv :=
  ⟨fun _ => "x", fun req =>
    match req.method with
    | Method.post => authOkResp
    | Method.get => ⟨404, JValue.null, "NF"⟩
    | _ => ⟨500, JValue.null, "e"⟩⟩

/-- Environment for C5/C10: two opportunities and two leads, dispatched
on the SOQL text in the request parameters. -/
def E5 : SfEnv :=
  ⟨fun _ => "x", fun req =>
    match req.method with
    | Method.post => authOkResp
    | Method.get =>
        if req.params = [("q", OT.oppQuery)] then
          ⟨200, JValue.obj [("records", JValue.arr [rAcme, rBeta])], "q"⟩
        else ⟨200, JValue.obj [("records", JValue.arr [leadAda, leadBare])], "q"⟩
    | _ => ⟨500, JValue.null, "e"⟩⟩

/-- Environment for C6: every query returns 200 with an empty records
array. -/
def E6 : SfEnv :=
  ⟨fun _ => "x", fun req =>
    match req.method with
    | Method.post => authOkResp
    | Method.get => ⟨200, JValue.obj [("records", JValue.arr [])], "q"⟩
    | _ => ⟨500, JValue.null, "e"⟩⟩

/-- Environment for C7: the token endpoint itself answers 401. -/
def E7 : SfEnv := ⟨fun _ => "x", fun _ => ⟨401, JValue.null, "Unauthorized"⟩⟩

/-- Environment for C8: the case POST answers 201 with an id. -/
def E8 : SfEnv :=
  ⟨fun _ => "x", fun req =>
    match req.method with
    | Method.post =>
        if req.url = auth_url then authOkResp
        else ⟨201, JValue.obj [("id", JValue.str ("500Z"))], "c"⟩
    | _ => ⟨500, JValue.null, "e"⟩⟩

/-- Environment for C9 (and the failure half of C3): the query endpoint
answers 500. -/
def E9 : SfEnv :=
  ⟨fun _ => "x", fun req =>
    match req.method with
    | Method.post => authOkResp
    | Method.get => ⟨500, JValue.null, "ERR"⟩
    | _ => ⟨500, JValue.null, "e"⟩⟩

/-- C1 witness: with one listed opportunity already in stage
`Prospecting`, choosing option 1 with new stage `Prospecting` yields the
no-update message and a trace of two POST/GET pairs with no PATCH. -/
theorem c1_witness :
    E1.respond (authRequest E1) =
      ⟨200, JValue.obj [("access_token", tokJ), ("instance_url", instJ)],
       "authbody"⟩ ∧
    (oppOptions 1 [rAcme]).lookup 1 = some (JValue.str ("006A")) ∧
    OT.validate_and_update_lifecycle_transition E1 1 ("Prospecting") [] =
      (Except.ok (OT.noUpdateMsg (JValue.str ("Acme Deal")) ("Prospecting")),
       [authRequest E1, queryRequest instJ tokJ OT.oppQuery,
        authRequest E1, OT.oppDetailsRequest instJ tokJ (JValue.str ("006A"))]) ∧
    ∀ req ∈ (OT.validate_and_update_lifecycle_transition E1 1 ("Prospecting") []).2,
      req.method ≠ Method.patch :=
  ⟨rfl, rfl,
   c1_stage_match_returns_no_update_and_never_patches E1 tokJ instJ
     ("authbody") ("q") ("d") [rAcme] 1 (JValue.str ("006A"))
     (JValue.str ("Acme Deal")) dsAcme ("Prospecting")
     rfl rfl (by simp) (by decide) rfl rfl rfl rfl⟩

/-- C2 counterexample: with one listed opportunity and the invalid
choice 99, the workflow does return the fixed invalid-option message —
but its trace is non-empty (the auth POST and the list GET were
issued), refuting "performs no network calls". -/
theorem c2_counterexample :
    (OT.validate_and_update_lifecycle_transition E2 99 ("Closed Won") []).1 =
      Except.ok OT.invalidOptionMsg ∧
    (OT.validate_and_update_lifecycle_transition E2 99 ("Closed Won") []).2 ≠
      ([] : Trace) := by
  have h : OT.validate_and_update_lifecycle_transition E2 99 ("Closed Won") [] =
      (Except.ok OT.invalidOptionMsg,
       [authRequest E2, queryRequest instJ tokJ OT.oppQuery]) := rfl
  exact ⟨by rw [h], by rw [h]; simp⟩

/-- C2 witness (amended claim): the same scenario, through the general
theorem: invalid-option message, and every issued request is one of the
two the initial fetch performs. -/
theorem c2_witness :
    (oppOptions 1 [rAcme]).lookup 99 = none ∧
    OT.validate_and_update_lifecycle_transition E2 99 ("Closed Won") [] =
      (Except.ok OT.invalidOptionMsg,
       [authRequest E2, queryRequest instJ tokJ OT.oppQuery]) ∧
    ∀ req ∈ (OT.validate_and_update_lifecycle_transition E2 99 ("Closed Won") []).2,
      req = authRequest E2 ∨ req = queryRequest instJ tokJ OT.oppQuery :=
  ⟨rfl,
   c2_invalid_choice_returns_fixed_message_no_further_calls E2 tokJ instJ
     ("authbody") ("q") [rAcme] 99 ("Closed Won")
     rfl rfl (by simp) (by decide) rfl⟩

/-- C3 witness: a 200 response with one record yields the records
array; a 500 response yields `QueryError{500, body}`. -/
theorem c3_witness :
    ST.execute_soql_query E2 ("SELECT Id FROM Opportunity") [] =
      (Except.ok (JValue.arr [rAcme]),
       [authRequest E2,
        queryRequest instJ tokJ ("SELECT Id FROM Opportunity")]) ∧
    ST.execute_soql_query E9 ("SELECT Id FROM Opportunity") [] =
      (Except.error (PyExn.queryError 500 ("ERR")),
       [authRequest E9,
        queryRequest instJ tokJ ("SELECT Id FROM Opportunity")]) :=
  ⟨(c3_execute_soql_query_records_or_query_error E2 tokJ instJ ("authbody")
      ("SELECT Id FROM Opportunity") 200
      (JValue.obj [("records", JValue.arr [rAcme])]) ("q") rfl rfl).1
      [("records", JValue.arr [rAcme])] rfl rfl,
   (c3_execute_soql_query_records_or_query_error E9 tokJ instJ ("authbody")
      ("SELECT Id FROM Opportunity") 500 JValue.null ("ERR") rfl rfl).2
      (by decide)⟩

/-- C4 counterexample: on a 404 lead fetch-by-id, `get_lead_details`
returns (as a normal value) the formatted error string — it does not
raise, refuting the claim that every Opportunity/Lead fetch-by-id
failure raises. -/
theorem c4_counterexample :
    (OT.get_lead_details E4 ("00Q1") []).1 =
      Except.ok (OT.leadDetailsErrMsg 404 ("NF")) ∧
    ∀ e : PyExn, (OT.get_lead_details E4 ("00Q1") []).1 ≠ Except.error e := by
  have h : OT.get_lead_details E4 ("00Q1") [] =
      (Except.ok (OT.leadDetailsErrMsg 404 ("NF")),
       [authRequest E4, OT.leadDetailsRequest instJ tokJ ("00Q1")]) := rfl
  exact ⟨by rw [h], fun e => by rw [h]; simp⟩

/-- C4 witness (amended claim): at the 404 environment, the Opportunity
fetch-by-id and `get_lead_email_info` raise with status and body in the
message, while `get_lead_details` returns the formatted error string. -/
theorem c4_witness :
    OT.fetch_opportunity_details E4 (JValue.str ("006A")) [] =
      (Except.error (PyExn.exception (OT.oppDetailsErrMsg 404 ("NF"))),
       [authRequest E4, OT.oppDetailsRequest instJ tokJ (JValue.str ("006A"))]) ∧
    OT.get_lead_email_info E4 ("00Q1") [] =
      (Except.error (PyExn.exception (OT.leadEmailErrMsg 404 ("NF"))),
       [authRequest E4, OT.leadDetailsRequest instJ tokJ ("00Q1")]) ∧
    OT.get_lead_details E4 ("00Q1") [] =
      (Except.ok (OT.leadDetailsErrMsg 404 ("NF")),
       [authRequest E4, OT.leadDetailsRequest instJ tokJ ("00Q1")]) :=
  c4_fetch_by_id_error_behaviour E4 tokJ instJ ("authbody")
    (JValue.str ("006A")) ("00Q1") 404 JValue.null ("NF") 404 JValue.null ("NF")
    rfl rfl (by decide) rfl (by decide)

/-- C5 witness: two opportunities and two leads produce the two-entry
texts and the mappings with key lists `[1, 2]` in input order. -/
theorem c5_witness :
    OT.fetch_opportunities E5 [] =
      (Except.ok (OT.oppsHeader ++ oppEntries 1 [rAcme, rBeta],
                  oppOptions 1 [rAcme, rBeta]),
       [authRequest E5, queryRequest instJ tokJ OT.oppQuery]) ∧
    (oppOptions 1 [rAcme, rBeta]).map Prod.fst = [1, 2] ∧
    OT.fetch_leads E5 [] =
      (Except.ok (OT.leadsHeader ++ leadEntries 1 [leadAda, leadBare],
                  leadOptions 1 [leadAda, leadBare]),
       [authRequest E5, queryRequest instJ tokJ OT.leadQuery]) ∧
    (leadOptions 1 [leadAda, leadBare]).map Prod.fst = [1, 2] := by
  have H := c5_formatters_enumerate_options_in_order E5 tokJ instJ
    ("authbody") ("q") ("q") [rAcme, rBeta] [leadAda, leadBare]
    rfl rfl rfl (by simp) (by simp) (by decide) (by decide)
  exact ⟨H.1, H.2.2.2.1, H.2.2.2.2.1, H.2.2.2.2.2.2.2⟩

/-- C6 counterexample: on an empty records array, `fetch_case_comments`
returns only its fixed no-comments message: the returned value is a
bare string (the embedded operation, like the source function, has no
option-mapping component in its result), refuting "together with an
empty option mapping ... for every record type" for the case-comments
type. -/
theorem c6_counterexample :
    ST.fetch_case_comments E6 ("0001") [] =
      (Except.ok ST.noCommentsMsg,
       [authRequest E6, queryRequest instJ tokJ (ST.caseCommentsQuery ("0001"))]) := rfl

/-- C6 witness (amended claim): at the empty-records environment all
three formatters return their fixed messages; opportunities and leads
also return the empty mapping. -/
theorem c6_witness :
    OT.fetch_opportunities E6 [] =
      (Except.ok (OT.noOppsMsg, []),
       [authRequest E6, queryRequest instJ tokJ OT.oppQuery]) ∧
    OT.fetch_leads E6 [] =
      (Except.ok (OT.noLeadsMsg, []),
       [authRequest E6, queryRequest instJ tokJ OT.leadQuery]) ∧
    ST.fetch_case_comments E6 ("0001") [] =
      (Except.ok ST.noCommentsMsg,
       [authRequest E6, queryRequest instJ tokJ (ST.caseCommentsQuery ("0001"))]) :=
  c6_empty_records_fixed_message_and_empty_mapping E6 tokJ instJ
    ("authbody") ("q") ("q") ("q") ("0001") rfl rfl rfl rfl

/-- C7 witness: a 401 from the token endpoint makes both copies of
`get_access_token` fail with "Error fetching access token: 401,
Unauthorized" after the single POST. -/
theorem c7_witness :
    (401 : Nat) ≠ 200 ∧
    ST.get_access_token E7 [] =
      (Except.error (PyExn.exception
        ("Error fetching access token: 401, Unauthorized")),
       [authRequest E7]) ∧
    OT.get_access_token E7 [] =
      (Except.error (PyExn.exception
        ("Error fetching access token: 401, Unauthorized")),
       [authRequest E7]) := by
  have H := c7_auth_failure_passes_status_and_body_through E7 401 JValue.null
    ("Unauthorized") rfl (by decide)
  exact ⟨by decide, H.1, H.2⟩

/-- C8 witness: creating a case (X, Y, High) against a 201 endpoint
returning id 500Z issues the exact five-field POST body and yields the
message carrying 500Z, X, Y and High. -/
theorem c8_witness :
    (ST.create_case_in_salesforce E8 ("X") ("Y") ("High") []).2 =
      [authRequest E8, ST.createCaseRequest instJ tokJ ("X") ("Y") ("High")] ∧
    ST.createCaseRequest instJ tokJ ("X") ("Y") ("High") =
      ⟨Method.post,
       pyStr instJ ++ "/services/data/" ++ api_version ++ "/sobjects/Case/",
       stdHeaders tokJ, [],
       some (JValue.obj [
         ("Subject", JValue.str ("X")),
         ("Description", JValue.str ("Y")),
         ("Priority", JValue.str ("High")),
         ("Status", JValue.str ("New")),
         ("Origin", JValue.str ("Web"))])⟩ ∧
    (ST.create_case_in_salesforce E8 ("X") ("Y") ("High") []).1 =
      Except.ok (ST.caseCreatedMsg (JValue.str ("500Z")) ("X") ("Y") ("High")) := by
  have H := c8_create_case_body_and_results E8 tokJ instJ ("authbody")
    ("X") ("Y") ("High") rfl
  exact ⟨H.1, H.2.1,
    H.2.2.1 [("id", JValue.str ("500Z"))] ("c") (JValue.str ("500Z")) rfl rfl⟩

/-- C9 witness: a 500 on the list query makes `fetch_opportunities`
return the error string with an empty mapping, and the workflow (choice
7) returns the same string after only the auth POST and the list GET. -/
theorem c9_witness :
    OT.fetch_opportunities E9 [] =
      (Except.ok (OT.oppFetchErrMsg 500 ("ERR"), []),
       [authRequest E9, queryRequest instJ tokJ OT.oppQuery]) ∧
    OT.validate_and_update_lifecycle_transition E9 7 ("Closed Won") [] =
      (Except.ok (OT.oppFetchErrMsg 500 ("ERR")),
       [authRequest E9, queryRequest instJ tokJ OT.oppQuery]) := by
  have H := c9_query_failure_covered_by_empty_options_return E9 tokJ instJ
    ("authbody") 500 JValue.null ("ERR") rfl rfl (by decide)
  exact ⟨H.1, (H.2 7 ("Closed Won")).1⟩

/-- C10 witness: leads `[leadAda, leadBare]` — the second carrying only
an `Id` — format successfully, and the absent `FirstName` of the bare
lead defaults to the empty string. -/
theorem c10_witness :
    OT.fetch_leads E5 [] =
      (Except.ok (OT.leadsHeader ++ leadEntries 1 [leadAda, leadBare],
                  leadOptions 1 [leadAda, leadBare]),
       [authRequest E5, queryRequest instJ tokJ OT.leadQuery]) ∧
    jgetD leadBare ("FirstName") (JValue.str ("")) = JValue.str ("") := by
  have H := c10_fetch_leads_tolerates_missing_display_fields E5 tokJ instJ
    ("authbody") ("q") [leadAda, leadBare] rfl rfl (by decide)
  exact ⟨H.1 (by simp) (by decide), H.2.2 leadBare ("FirstName") rfl rfl⟩
